import Mathlib

/-
Shallow embedding of the graph mutation and correction engine of the
DrawDiagram repository.

Python dictionaries (`Graph.nodes : Dict[str, Node]`) are embedded as ordered
association lists `List (String × Node)`; Python `list` becomes `List`; machine
floats used only for display are embedded as `ℚ`, and the layout geometry is
embedded generically over a scalar type `K` (instantiated with `ℝ` in the
theorems about trigonometry).  Fallible Python operations (attribute access on
a missing attribute, pydantic model construction with a missing required
field) are embedded with `Except String`.
-/

/- Embeds EdgeAttributes from src/diagmind/graph/edges.py.
   `temporal` and `polarity` are Literal strings in the source; embedded as
   `Option String`.  `strength` is an optional float; embedded as `Option ℚ`
   since it is only ever displayed, never computed with. -/
structure EdgeAttributes where
  directional : Bool := true
  temporal : Option String := none
  strength : Option ℚ := none
  certainty : Bool := true
  polarity : Option String := none
deriving DecidableEq

/- Embeds Edge from src/diagmind/graph/edges.py.  Its declared fields are
   exactly source, target, family, operator, attributes.  In particular the
   Edge model declares NO field named `birectional`, which graph.py
   nevertheless reads (see `Edge.birectional_access` below). -/
structure Edge where
  source : String
  target : String
  family : String
  operator : String
  attributes : EdgeAttributes
deriving DecidableEq

instance : Inhabited Edge :=
  ⟨{ source := "", target := "", family := "", operator := "", attributes := {} }⟩

/- Embeds NodeAttributes from src/diagmind/graph/node.py. -/
structure NodeAttributes where
  abstraction_level : String := "structural"
  role : String
  importance : String := "primary"
  observable : Bool
  physicality : Option String := none
deriving DecidableEq

/- Embeds Node from src/diagmind/graph/node.py.  `attributes` is a REQUIRED
   field with no default: constructing a Node without it raises a pydantic
   ValidationError (see `fallback_node_ctor` below). -/
structure Node where
  id : String
  type : String
  label : String
  attributes : NodeAttributes
deriving DecidableEq

/- Embeds Graph from src/diagmind/graph/graph.py: a dict of nodes keyed by id
   and an ordered list of edges.  The Python dict is embedded as an ordered
   association list. -/
structure Graph where
  nodes : List (String × Node) := []
  edges : List Edge := []
deriving DecidableEq

/- Python `self.nodes.get(k)`: first (unique) binding of key `k`. -/
def lookup_node (m : List (String × Node)) (k : String) : Option Node :=
  (m.find? (fun p => p.1 == k)).map (fun p => p.2)

/- Python `k in self.nodes`. -/
def contains_key (m : List (String × Node)) (k : String) : Bool :=
  m.any (fun p => p.1 == k)

/- Python `del self.nodes[k]` (dict keys are unique, so filtering the key out
   is the same operation). -/
def erase_key (m : List (String × Node)) (k : String) : List (String × Node) :=
  m.filter (fun p => p.1 != k)

/- Embeds Graph.remove_node (graph.py lines 26-44): early-return False when
   the id is absent, otherwise delete the node and every edge whose source or
   target equals the id, returning True. -/
def Graph.remove_node (g : Graph) (node_id : String) : Graph × Bool :=
  if contains_key g.nodes node_id then
    ({ nodes := erase_key g.nodes node_id,
       edges := g.edges.filter (fun e => e.source != node_id && e.target != node_id) },
     true)
  else
    (g, false)

/- Embeds ValidatorInstruction from src/diagmind/utils/models.py: a string
   action tag plus optional per-action fields and a mandatory reason. -/
structure ValidatorInstruction where
  action : String
  edge_id : Option Int := none
  node_id : Option String := none
  source_node_id : Option String := none
  target_node_id : Option String := none
  new_relation : Option String := none
  new_label : Option String := none
  reason : String
deriving DecidableEq

/- Embeds ValidatorWarning from src/diagmind/utils/models.py. -/
structure ValidatorWarning where
  node_id : Option String := none
  edge_id : Option Int := none
  message : String
deriving DecidableEq

/- Embeds ValidatorResponse from src/diagmind/utils/models.py. -/
structure ValidatorResponse where
  needs_correction : Bool := false
  instructions : List ValidatorInstruction := []
  warnings : List ValidatorWarning := []
deriving DecidableEq

/- Embeds the audit-log dictionaries appended by Graph.apply_instruction: one
   record per attempted instruction, with only the keys that branch writes
   set (absent dict keys are `none`). -/
structure AuditEntry where
  action : String
  status : String
  reason : String
  edge_id : Option Int := none
  node_id : Option String := none
  source_node_id : Option String := none
  target_node_id : Option String := none
  old_relation : Option String := none
  new_relation : Option String := none
  old_label : Option String := none
  new_label : Option String := none
  message : Option String := none
deriving DecidableEq

/- Python `f"{edge_id}"` on an Optional[int]. -/
def opt_int_str : Option Int → String
  | none => "None"
  | some i => toString i

/- Python `f"{node_id}"` on an Optional[str]. -/
def opt_str_str : Option String → String
  | none => "None"
  | some s => s

/- In-place update of the list element at a 0-based index (Python
   `self.edges[i].field = ...` after a bounds check). -/
def list_modify {α : Type} : List α → Nat → (α → α) → List α
  | [], _, _ => []
  | a :: l, 0, f => f a :: l
  | a :: l, n + 1, f => a :: list_modify l n f

/- The endpoint rewrite performed by the merge_nodes loop (graph.py lines
   279-283): every endpoint equal to the source id becomes the target id. -/
def merge_endpoints (s t : String) (e : Edge) : Edge :=
  { e with
    source := if e.source = s then t else e.source,
    target := if e.target = s then t else e.target }

/- The in-place label update performed by rename_node (graph.py lines
   306-308), expressed on the association list. -/
def rename_label (nid new_lbl : String) (p : String × Node) : String × Node :=
  if p.1 == nid then (p.1, { p.2 with label := new_lbl }) else p

/- Embeds Graph.apply_instruction (graph.py lines 211-334).  The state
   mutation is made explicit: the result is the new graph, the audit log with
   the one appended entry, and the returned boolean.  The Python body wraps
   everything in `try/except Exception`; with instructions of the typed shape
   produced by `ValidatorInstruction.model_dump()` none of the embedded
   operations can raise, so the `except` branch is unreachable and every
   fault is one of the explicit validation branches below.  The instruction
   dict has no "message" key, so `instruction.get("message", default)` in the
   flag_error branch always yields the default string. -/
def Graph.apply_instruction (g : Graph) (inst : ValidatorInstruction)
    (log : List AuditEntry) : Graph × List AuditEntry × Bool :=
  let action := inst.action
  let reason := inst.reason
  if action = "reverse_edge" then
    match inst.edge_id with
    | none =>
        (g, log ++ [{ action := action, status := "failed",
                      reason := "Invalid edge_id: " ++ opt_int_str none }], false)
    | some eid =>
        if eid < 1 || eid > (g.edges.length : Int) then
          (g, log ++ [{ action := action, status := "failed",
                        reason := "Invalid edge_id: " ++ opt_int_str (some eid) }], false)
        else
          let swapped := list_modify g.edges (eid - 1).toNat
            (fun e => { e with source := e.target, target := e.source })
          ({ g with edges := swapped },
           log ++ [{ action := action, edge_id := some eid, status := "applied",
                     reason := reason }],
           true)
  else if action = "remove_edge" then
    match inst.edge_id with
    | none =>
        (g, log ++ [{ action := action, status := "failed",
                      reason := "Invalid edge_id: " ++ opt_int_str none }], false)
    | some eid =>
        if eid < 1 || eid > (g.edges.length : Int) then
          (g, log ++ [{ action := action, status := "failed",
                        reason := "Invalid edge_id: " ++ opt_int_str (some eid) }], false)
        else
          ({ g with edges := g.edges.eraseIdx (eid - 1).toNat },
           log ++ [{ action := action, edge_id := some eid, status := "applied",
                     reason := reason }],
           true)
  else if action = "change_relation" then
    match inst.edge_id with
    | none =>
        (g, log ++ [{ action := action, status := "failed",
                      reason := "Invalid edge_id: " ++ opt_int_str none }], false)
    | some eid =>
        if eid < 1 || eid > (g.edges.length : Int) then
          (g, log ++ [{ action := action, status := "failed",
                        reason := "Invalid edge_id: " ++ opt_int_str (some eid) }], false)
        else
          match inst.new_relation with
          | none =>
              (g, log ++ [{ action := action, status := "failed",
                            reason := "Missing new_relation" }], false)
          | some nr =>
              let changed := list_modify g.edges (eid - 1).toNat
                (fun e => { e with operator := nr })
              ({ g with edges := changed },
               log ++ [{ action := action, edge_id := some eid,
                         old_relation := some (g.edges.getD (eid - 1).toNat default).operator,
                         new_relation := some nr, status := "applied",
                         reason := reason }],
               true)
  else if action = "merge_nodes" then
    -- Python: `if source_node_id not in self.nodes or target_node_id not in
    -- self.nodes` — a missing (None) id is not a dict key, so it fails the
    -- same membership test.
    match inst.source_node_id, inst.target_node_id with
    | some s, some t =>
        if !(contains_key g.nodes s) || !(contains_key g.nodes t) then
          (g, log ++ [{ action := action, status := "failed",
                        reason := "Invalid node IDs" }], false)
        else if s = t then
          (g, log ++ [{ action := action, status := "failed",
                        reason := "Cannot merge node with itself" }], false)
        else
          ({ nodes := erase_key g.nodes s,
             edges := g.edges.map (merge_endpoints s t) },
           log ++ [{ action := action, source_node_id := some s,
                     target_node_id := some t, status := "applied",
                     reason := reason }],
           true)
    | _, _ =>
        (g, log ++ [{ action := action, status := "failed",
                      reason := "Invalid node IDs" }], false)
  else if action = "rename_node" then
    match inst.node_id with
    | none =>
        (g, log ++ [{ action := action, status := "failed",
                      reason := "Invalid node_id: " ++ opt_str_str none }], false)
    | some nid =>
        if !(contains_key g.nodes nid) then
          (g, log ++ [{ action := action, status := "failed",
                        reason := "Invalid node_id: " ++ opt_str_str (some nid) }], false)
        else
          match inst.new_label with
          | none =>
              (g, log ++ [{ action := action, status := "failed",
                            reason := "Missing new_label" }], false)
          | some nl =>
              ({ g with nodes := g.nodes.map (rename_label nid nl) },
               log ++ [{ action := action, node_id := some nid,
                         old_label := (lookup_node g.nodes nid).map (fun n => n.label),
                         new_label := some nl, status := "applied",
                         reason := reason }],
               true)
  else if action = "flag_error" then
    (g, log ++ [{ action := action, status := "error", reason := reason,
                  message := some "Pipeline halted due to validator error" }],
     false)
  else
    (g, log ++ [{ action := action, status := "failed",
                  reason := "Unknown action: " ++ action }], false)

/- Python `x.edge_id or 0`, the sort key used by apply_validator_response
   (a missing edge_id, and an edge_id of 0, both give key 0). -/
def inst_key (i : ValidatorInstruction) : Int :=
  i.edge_id.getD 0

/- Stable insertion step: the new element is placed before the first element
   with a strictly smaller key, so among equal keys earlier elements stay
   first. -/
def insert_desc_by {α : Type} (key : α → Int) (x : α) : List α → List α
  | [] => [x]
  | y :: ys => if key y < key x then x :: y :: ys else y :: insert_desc_by key x ys

/- Embeds Python `list.sort(key=..., reverse=True)`: a stable sort into
   descending key order (Python sort is stable; this left fold inserts each
   element after every already-placed element with a greater-or-equal key,
   which produces the same output). -/
def sort_desc_by {α : Type} (key : α → Int) (l : List α) : List α :=
  l.foldl (fun acc x => insert_desc_by key x acc) []

/- Embeds the instruction loop at the end of Graph.apply_validator_response
   (graph.py lines 364-369): apply each instruction in order; a failed
   result from a flag_error instruction stops the loop and reports halt
   (False); every other result continues; reaching the end reports True. -/
def Graph.run_instructions : Graph → List ValidatorInstruction → List AuditEntry →
    Graph × List AuditEntry × Bool
  | g, [], log => (g, log, true)
  | g, inst :: rest, log =>
      let r := g.apply_instruction inst log
      if !r.2.2 && inst.action == "flag_error" then
        (r.1, r.2.1, false)
      else
        Graph.run_instructions r.1 rest r.2.1

/- Embeds Graph.apply_validator_response (graph.py lines 336-369): partition
   the batch into remove_edge instructions and the others (the single
   append-loop preserves each group's original relative order, i.e. it is a
   filter), sort the removals by descending `edge_id or 0`, then run the
   removals followed by the others. -/
def Graph.apply_validator_response (g : Graph) (resp : ValidatorResponse)
    (log : List AuditEntry) : Graph × List AuditEntry × Bool :=
  let remove_instructions := resp.instructions.filter (fun i => i.action == "remove_edge")
  let other_instructions := resp.instructions.filter (fun i => i.action != "remove_edge")
  let sorted_removes := sort_desc_by inst_key remove_instructions
  Graph.run_instructions g (sorted_removes ++ other_instructions) log

/- Terminal states of the validation while-loop in scripts/demo_pipeline.py:
   sys.exit(1) on a halt signal, normal break when needs_correction is false,
   and the gave-up break when the iteration counter exceeds max_iterations. -/
inductive LoopOutcome where
  | halted
  | converged
  | gaveUp
deriving DecidableEq

/- Embeds the validation while-loop of scripts/demo_pipeline.py (lines
   135-201).  `validate` stands for the external validator call (parse with
   response_format=ValidatorResponse) on the current graph; the Nat argument
   is the number of loop iterations still allowed
   (`max_iterations - iteration` at the top of the loop body), so the
   `iteration > max_iterations` break is the 0 case.  The returned Nat counts
   the rounds in which a batch was applied.  A fresh audit_log list is created
   each round, exactly as in the script. -/
def validation_loop (validate : Graph → ValidatorResponse) :
    Nat → Graph → Graph × LoopOutcome × Nat
  | 0, g => (g, LoopOutcome.gaveUp, 0)
  | b + 1, g =>
      let resp := validate g
      let r := g.apply_validator_response resp []
      if !r.2.2 then
        (r.1, LoopOutcome.halted, 1)
      else if !resp.needs_correction then
        (r.1, LoopOutcome.converged, 1)
      else
        let next := validation_loop validate b r.1
        (next.1, next.2.1, next.2.2 + 1)

/- The per-round graph transformation of the loop. -/
def validation_step (validate : Graph → ValidatorResponse) (g : Graph) : Graph :=
  (g.apply_validator_response (validate g) []).1

/- `max_iterations = 10` in scripts/demo_pipeline.py line 135. -/
def demo_max_iterations : Nat := 10

/- Embeds the Python attribute access `edge.birectional` performed by
   Graph.__str__ (graph.py line 119) and Graph.get_all_edges (line 136).
   The Edge model in edges.py declares only the fields source, target,
   family, operator, attributes — there is no `birectional` field (its
   attributes carry `directional`), and pydantic raises AttributeError when
   an undeclared attribute is read.  The access therefore never yields a
   value. -/
def Edge.birectional_access (_e : Edge) : Except String Bool :=
  Except.error "AttributeError: Edge object has no attribute birectional"

/- Embeds the expression `Node(id=edge.source, type="entity",
   label=edge.source)` built as the dict-lookup default in
   Graph.get_all_edges (graph.py lines 134-135).  Node.attributes is a
   required pydantic field with no default, so this constructor call raises
   ValidationError before the lookup even happens (Python evaluates the
   default argument eagerly). -/
def fallback_node_ctor (_nid : String) : Except String Node :=
  Except.error "ValidationError: Node attributes field required"

/- Python truthiness of `edge.attributes.strength` (graph.py line 116): None
   and 0.0 are falsy and display as "none". -/
def strength_str : Option ℚ → String
  | none => "none"
  | some s => if s = 0 then "none" else toString s

/- Python truthiness of `edge.attributes.polarity` (graph.py line 117): None
   and the empty string are falsy and display as "none". -/
def polarity_str : Option String → String
  | none => "none"
  | some p => if p = "" then "none" else p

/- One line of Graph.__str__ (graph.py lines 100-124) for the 1-indexed edge
   number i: the node lookups fall back to "Unknown (id)" when the endpoint
   is not a key of the node map, and the line then reads `edge.birectional`,
   which raises. -/
def Graph.str_line (g : Graph) (i : Nat) (e : Edge) : Except String String :=
  let source_str :=
    match lookup_node g.nodes e.source with
    | some n => n.label ++ " (" ++ n.id ++ ") " ++ n.type
    | none => "Unknown (" ++ e.source ++ ")"
  let target_str :=
    match lookup_node g.nodes e.target with
    | some n => n.label ++ " (" ++ n.id ++ ") " ++ n.type
    | none => "Unknown (" ++ e.target ++ ")"
  let edge_attrs := strength_str e.attributes.strength ++ "-" ++
    polarity_str e.attributes.polarity
  match e.birectional_access with
  | Except.error m => Except.error m
  | Except.ok b =>
      let birectional_str := if b then "bidirectional" else "unidirectional"
      Except.ok (source_str ++ " -> edge (" ++ toString i ++ ", " ++ e.operator ++
        ", " ++ birectional_str ++ ", " ++ edge_attrs ++ ") -> " ++ target_str)

/- One line of Graph.get_all_edges (graph.py lines 133-137): both endpoint
   lookups are given the eagerly-constructed fallback Node as default, so the
   fallback constructor's ValidationError fires first on every line. -/
def Graph.get_all_edges_line (g : Graph) (i : Nat) (e : Edge) : Except String String :=
  match fallback_node_ctor e.source with
  | Except.error m => Except.error m
  | Except.ok src_dflt =>
      let source_label := ((lookup_node g.nodes e.source).getD src_dflt).label
      match fallback_node_ctor e.target with
      | Except.error m => Except.error m
      | Except.ok tgt_dflt =>
          let target_label := ((lookup_node g.nodes e.target).getD tgt_dflt).label
          match e.birectional_access with
          | Except.error m => Except.error m
          | Except.ok b =>
              let arrow := if b then "<-->" else "-->"
              Except.ok (toString i ++ ") " ++ source_label ++ " --[" ++
                e.operator ++ "]--" ++ arrow ++ " " ++ target_label)

/- The `for i, edge in enumerate(self.edges, 1)` loop: build the line for
   each edge in order, propagating the first raised exception. -/
def render_lines (f : Nat → Edge → Except String String) :
    Nat → List Edge → Except String (List String)
  | _, [] => Except.ok []
  | i, e :: rest =>
      match f i e with
      | Except.error m => Except.error m
      | Except.ok line =>
          match render_lines f (i + 1) rest with
          | Except.error m => Except.error m
          | Except.ok ls => Except.ok (line :: ls)

/- Embeds Graph.__str__ (graph.py lines 92-126). -/
def Graph.str_render (g : Graph) : Except String String :=
  if g.edges = [] then Except.ok "Graph with no edges."
  else
    match render_lines g.str_line 1 g.edges with
    | Except.error m => Except.error m
    | Except.ok lines => Except.ok (String.intercalate "\n" lines)

/- Embeds Graph.get_all_edges (graph.py lines 128-138). -/
def Graph.get_all_edges (g : Graph) : Except String String :=
  if g.edges = [] then Except.ok "Edges: []"
  else
    match render_lines g.get_all_edges_line 1 g.edges with
    | Except.error m => Except.error m
    | Except.ok lines => Except.ok (String.intercalate "\n" lines)

/- Embeds Orbit from src/diagmind/utils/models.py, generic over the float
   scalar type. -/
structure Orbit (K : Type) where
  center : String
  radius : K
  angle_deg : K
deriving DecidableEq

/- Embeds EntityPosition from src/diagmind/utils/models.py. -/
structure EntityPosition (K : Type) where
  type : String
  x : K
  y : K
  orbit : Option (Orbit K) := none
deriving DecidableEq

/- Embeds EntitySize from src/diagmind/utils/models.py. -/
structure EntitySize (K : Type) where
  radius : K
  width : Option K := none
  height : Option K := none
deriving DecidableEq

/- Embeds Entity from src/diagmind/utils/models.py. -/
structure Entity (K : Type) where
  id : String
  kind : String := "entity"
  shape : String
  size : EntitySize K
  position : EntityPosition K
  parent : Option String := none
  notes : String := ""
deriving DecidableEq

/- Embeds LayoutPlan._get_entity_position (models.py lines 197-208),
   generic over the scalar type and over the trigonometric primitives
   (math.cos, math.sin, math.radians) so the definition stays executable;
   the theorems instantiate them with Real.cos, Real.sin and degree-to-radian
   conversion.  The source function recurses with no cycle guard, so the
   embedding carries explicit fuel: `none` at fuel 0 marks a computation that
   has not terminated within that recursion depth, and a result that is
   `none` at every fuel is a diverging call.  When the orbit center id
   matches no entity, the source falls through and returns the stored
   (x, y) with no error. -/
def get_entity_position {K : Type} [Add K] [Mul K]
    (cosf sinf radiansf : K → K) (entities : List (Entity K)) :
    Nat → Entity K → Option (K × K)
  | 0, _ => none
  | fuel + 1, ent =>
      if ent.position.type = "orbit" then
        match ent.position.orbit with
        | some orb =>
            match entities.find? (fun e => e.id == orb.center) with
            | some center_entity =>
                match get_entity_position cosf sinf radiansf entities fuel center_entity with
                | some (cx, cy) =>
                    let angle_rad := radiansf orb.angle_deg
                    some (cx + orb.radius * cosf angle_rad,
                          cy + orb.radius * sinf angle_rad)
                | none => none
            | none => some (ent.position.x, ent.position.y)
        | none => some (ent.position.x, ent.position.y)
      else some (ent.position.x, ent.position.y)

/- Shorthand for the instruction order actually executed by
   apply_validator_response: removals sorted by descending key. -/
def sorted_removes_of (resp : ValidatorResponse) : List ValidatorInstruction :=
  sort_desc_by inst_key (resp.instructions.filter (fun i => i.action == "remove_edge"))

/- Shorthand for the non-removal instructions in their original order. -/
def others_of (resp : ValidatorResponse) : List ValidatorInstruction :=
  resp.instructions.filter (fun i => i.action != "remove_edge")

/- Concrete sample data used by witnesses and counterexamples. -/
def sample_attrs : NodeAttributes := { role := "input", observable := true }

def node_a : Node := { id := "a", type := "entity", label := "A", attributes := sample_attrs }

def node_b : Node := { id := "b", type := "entity", label := "B", attributes := sample_attrs }

def edge_xy : Edge :=
  { source := "x", target := "y", family := "causal", operator := "causes", attributes := {} }

def g_one_edge : Graph := { nodes := [], edges := [edge_xy] }

def g_ab : Graph := { nodes := [("a", node_a), ("b", node_b)], edges := [edge_xy] }

/- Helper lemmas about the association-list dict operations. -/
theorem lookup_node_erase_key (m : List (String × Node)) (s t : String) (h : t ≠ s) :
    lookup_node (erase_key m s) t = lookup_node m t := by
  unfold lookup_node erase_key
  rw [List.find?_filter]
  have hpred : (fun a : String × Node => decide ((a.1 != s) = true ∧ (a.1 == t) = true)) =
      (fun a : String × Node => a.1 == t) := by
    funext a
    by_cases ha : a.1 = t
    · have : a.1 ≠ s := by
        rw [ha]
        exact h
      simp [ha, this, h]
    · simp [ha]
  rw [hpred]

theorem contains_key_erase_key_self (m : List (String × Node)) (s : String) :
    contains_key (erase_key m s) s = false := by
  unfold contains_key erase_key
  simp only [List.any_eq_false]
  intro p hp
  have := List.of_mem_filter hp
  simp only [bne_iff_ne, ne_eq, decide_eq_true_eq] at this
  simp [this]

/- Membership in the stable descending insertion. -/
theorem mem_insert_desc_by {α : Type} (key : α → Int) (x y : α) (l : List α) :
    y ∈ insert_desc_by key x l ↔ y = x ∨ y ∈ l := by
  induction l with
  | nil => simp [insert_desc_by]
  | cons z zs ih =>
      by_cases hz : key z < key x
      · simp [insert_desc_by, hz]
      · simp [insert_desc_by, hz, ih]
        tauto

/- Inserting preserves the weakly-descending-key invariant. -/
theorem pairwise_insert_desc_by {α : Type} (key : α → Int) (x : α) (l : List α)
    (h : l.Pairwise (fun a b => key b ≤ key a)) :
    (insert_desc_by key x l).Pairwise (fun a b => key b ≤ key a) := by
  induction l with
  | nil => simp [insert_desc_by]
  | cons z zs ih =>
      rcases List.pairwise_cons.mp h with ⟨hz, hzs⟩
      by_cases hlt : key z < key x
      · rw [insert_desc_by, if_pos hlt]
        refine List.pairwise_cons.mpr ⟨?_, h⟩
        intro b hb
        rcases List.mem_cons.mp hb with hb | hb
        · exact le_of_lt (hb ▸ hlt)
        · exact le_trans (hz b hb) (le_of_lt hlt)
      · rw [insert_desc_by, if_neg hlt]
        refine List.pairwise_cons.mpr ⟨?_, ih hzs⟩
        intro b hb
        rcases (mem_insert_desc_by key x b zs).mp hb with hb | hb
        · exact hb ▸ le_of_not_lt hlt
        · exact hz b hb

/- The sort used by the batch corrector yields weakly descending keys. -/
theorem pairwise_sort_desc_by {α : Type} (key : α → Int) (l : List α) :
    (sort_desc_by key l).Pairwise (fun a b => key b ≤ key a) := by
  suffices h : ∀ (l acc : List α), acc.Pairwise (fun a b => key b ≤ key a) →
      (l.foldl (fun acc x => insert_desc_by key x acc) acc).Pairwise
        (fun a b => key b ≤ key a) by
    exact h l [] List.Pairwise.nil
  intro l
  induction l with
  | nil => exact fun acc h => h
  | cons x xs ih =>
      intro acc hacc
      exact ih (insert_desc_by key x acc) (pairwise_insert_desc_by key x acc hacc)

/-- Claim C7 counterexample: the claim "after the call no edge remains whose source
or target equals x" fails when x is not a node key: on the graph with no
nodes and the single edge x -> y, remove_node "x" returns false and leaves
the dangling edge with source "x" in place. -/
theorem remove_node_cascade_cex :
    (g_one_edge.remove_node "x").2 = false
    ∧ (g_one_edge.remove_node "x").1 = g_one_edge
    ∧ edge_xy ∈ (g_one_edge.remove_node "x").1.edges
    ∧ edge_xy.source = "x" := by
  refine ⟨by decide, by decide, ?_, by decide⟩
  decide

/-- Claim C7 amended: remove_node(x) returns true iff x was a key of the node map;
when x was present, no edge remains whose source or target equals x; when x
was absent, the graph (including any dangling edges that mention x) is
returned unchanged. -/
theorem remove_node_spec (g : Graph) (x : String) :
    ((g.remove_node x).2 = contains_key g.nodes x)
    ∧ (contains_key g.nodes x = true →
        ∀ e ∈ (g.remove_node x).1.edges, e.source ≠ x ∧ e.target ≠ x)
    ∧ (contains_key g.nodes x = false → (g.remove_node x).1 = g) := by
  unfold Graph.remove_node
  by_cases h : contains_key g.nodes x
  · refine ⟨by simp [h], ?_, by simp [h]⟩
    intro _ e he
    simp only [h, if_true] at he
    have := List.of_mem_filter he
    simp only [Bool.and_eq_true, bne_iff_ne, ne_eq] at this
    exact this
  · simp [h]

/-- Claim C7 witness: the amended statement evaluated on concrete graphs — a
missing id leaves the graph unchanged, the returned flag matches key
membership, and a surviving edge avoids the removed id. -/
theorem remove_node_spec_witness :
    ((g_one_edge.remove_node "z").1 = g_one_edge)
    ∧ ((g_ab.remove_node "a").2 = contains_key g_ab.nodes "a")
    ∧ (edge_xy.source ≠ "a" ∧ edge_xy.target ≠ "a") :=
  ⟨(remove_node_spec g_one_edge "z").2.2 (by decide),
   (remove_node_spec g_ab "a").1,
   (remove_node_spec g_ab "a").2.1 (by decide) edge_xy (by decide)⟩

/-- Claim C2: the claim that the edge listing and string rendering succeed fails on
every graph with at least one edge.  On the one-edge graph, __str__ raises
AttributeError reading `edge.birectional` (Edge declares no such field) and
get_all_edges raises ValidationError constructing its fallback Node without
the required attributes field — both before any unknown-node fallback can
matter. -/
theorem render_crashes :
    g_one_edge.str_render =
      Except.error "AttributeError: Edge object has no attribute birectional"
    ∧ g_one_edge.get_all_edges =
      Except.error "ValidationError: Node attributes field required" := by
  constructor <;> rfl

/-- Claim C4: the instruction interpreter appends exactly one audit entry per
instruction (for every action tag, known or unknown), and whenever the
returned flag is false — every validation failure, policy violation, unknown
action, and the flag_error signal — the graph is returned unchanged.  The
embedding is total, reflecting that the Python try/except lets no exception
escape. -/
theorem apply_instruction_atomic (g : Graph) (inst : ValidatorInstruction)
    (log : List AuditEntry) :
    (∃ entry, (g.apply_instruction inst log).2.1 = log ++ [entry])
    ∧ ((g.apply_instruction inst log).2.2 = false →
        (g.apply_instruction inst log).1 = g) := by
  unfold Graph.apply_instruction
  dsimp only
  repeat' split
  all_goals refine ⟨⟨_, rfl⟩, ?_⟩
  all_goals first
    | exact fun _ => rfl
    | exact fun h => nomatch h

/-- Claim C4 witness: a concrete unknown action appends one failed entry and leaves
the concrete graph unchanged. -/
theorem apply_instruction_atomic_witness :
    (g_one_edge.apply_instruction { action := "bogus", reason := "r" } []).1 = g_one_edge :=
  (apply_instruction_atomic g_one_edge { action := "bogus", reason := "r" } []).2 (by decide)

/- The cyclic orbit pair from the open question in the spec: A orbits B and
   B orbits A. -/
def ent_cyc_a : Entity ℚ :=
  { id := "A", shape := "circle", size := { radius := 0 },
    position := { type := "orbit", x := 0, y := 0,
                  orbit := some { center := "B", radius := 1, angle_deg := 0 } } }

def ent_cyc_b : Entity ℚ :=
  { id := "B", shape := "circle", size := { radius := 0 },
    position := { type := "orbit", x := 0, y := 0,
                  orbit := some { center := "A", radius := 1, angle_deg := 0 } } }

/- An entity whose orbit center id matches no entity. -/
def ent_dangling : Entity ℚ :=
  { id := "D", shape := "circle", size := { radius := 0 },
    position := { type := "orbit", x := 7, y := 8,
                  orbit := some { center := "Z", radius := 1, angle_deg := 0 } } }

/-- Claim C5: evaluating _get_entity_position at the cyclic input A orbits B,
B orbits A produces no result at ANY recursion depth, for every choice of the
trigonometric primitives — the source recursion diverges instead of failing
with a detected error; and on an unresolved center id the source silently
returns the stored coordinates instead of failing. -/
theorem orbit_cycle_diverges :
    (∀ (cosf sinf radiansf : ℚ → ℚ) (fuel : Nat),
       get_entity_position cosf sinf radiansf [ent_cyc_a, ent_cyc_b] fuel ent_cyc_a = none)
    ∧ (∀ (cosf sinf radiansf : ℚ → ℚ) (fuel : Nat),
       get_entity_position cosf sinf radiansf [ent_cyc_a, ent_cyc_b] fuel ent_cyc_b = none)
    ∧ (∀ (cosf sinf radiansf : ℚ → ℚ),
       get_entity_position cosf sinf radiansf [ent_dangling] 1 ent_dangling = some (7, 8)) := by
  have key : ∀ (cosf sinf radiansf : ℚ → ℚ) (fuel : Nat),
      get_entity_position cosf sinf radiansf [ent_cyc_a, ent_cyc_b] fuel ent_cyc_a = none
      ∧ get_entity_position cosf sinf radiansf [ent_cyc_a, ent_cyc_b] fuel ent_cyc_b = none := by
    intro cosf sinf radiansf fuel
    induction fuel with
    | zero => exact ⟨rfl, rfl⟩
    | succ n ih =>
        simp only [ent_cyc_a, ent_cyc_b] at ih ⊢
        constructor
        · simp only [get_entity_position, List.find?]
          simp [ih.2]
        · simp only [get_entity_position, List.find?]
          simp [ih.1]
  exact ⟨fun c s r fuel => (key c s r fuel).1,
         fun c s r fuel => (key c s r fuel).2,
         fun c s r => rfl⟩

/-- Claim C6: when both ids are present and distinct, merge_nodes rewrites every
edge endpoint equal to the source id to the target id, deletes the source
node, and leaves the target node's binding untouched; when either id is
missing (in particular when re-running the merge after the source is gone)
or the ids are equal, the instruction fails validation and the graph is
unchanged. -/
theorem merge_nodes_spec (g : Graph) (inst : ValidatorInstruction)
    (log : List AuditEntry) (s t : String)
    (ha : inst.action = "merge_nodes")
    (hs : inst.source_node_id = some s)
    (ht : inst.target_node_id = some t) :
    ((contains_key g.nodes s = true → contains_key g.nodes t = true → s ≠ t →
       (g.apply_instruction inst log).1 =
         { nodes := erase_key g.nodes s, edges := g.edges.map (merge_endpoints s t) }
       ∧ lookup_node (g.apply_instruction inst log).1.nodes t = lookup_node g.nodes t
       ∧ contains_key (g.apply_instruction inst log).1.nodes s = false
       ∧ (g.apply_instruction inst log).2.2 = true))
    ∧ ((contains_key g.nodes s = false ∨ contains_key g.nodes t = false ∨ s = t) →
       (g.apply_instruction inst log).1 = g ∧ (g.apply_instruction inst log).2.2 = false) := by
  constructor
  · intro hcs hct hne
    have hres : (g.apply_instruction inst log).1 =
        { nodes := erase_key g.nodes s, edges := g.edges.map (merge_endpoints s t) }
        ∧ (g.apply_instruction inst log).2.2 = true := by
      unfold Graph.apply_instruction
      simp [ha, hs, ht, hcs, hct, hne]
    refine ⟨hres.1, ?_, ?_, hres.2⟩
    · rw [hres.1]
      exact lookup_node_erase_key g.nodes s t (Ne.symm hne)
    · rw [hres.1]
      exact contains_key_erase_key_self g.nodes s
  · intro hfail
    unfold Graph.apply_instruction
    rcases hfail with hcs | hct | hst
    · simp [ha, hs, ht, hcs]
    · simp [ha, hs, ht, hct]
    · by_cases hcs : contains_key g.nodes s
      · by_cases hct : contains_key g.nodes t
        · simp [ha, hs, ht, hcs, hct, hst]
        · simp [ha, hs, ht, hct]
      · simp [ha, hs, ht, hcs]

/- Concrete merge scenario: nodes a and b, a self-loop edge on b. -/
def edge_bb : Edge :=
  { source := "b", target := "b", family := "causal", operator := "causes", attributes := {} }

def g_merge : Graph := { nodes := [("a", node_a), ("b", node_b)], edges := [edge_bb] }

def inst_merge : ValidatorInstruction :=
  { action := "merge_nodes", source_node_id := some "b", target_node_id := some "a",
    reason := "duplicate" }

/-- Claim C6 witness: merging node b into node a on the concrete graph rewrites the
self-loop's endpoints, erases b, keeps a's binding and reports success. -/
theorem merge_nodes_spec_witness :
    (g_merge.apply_instruction inst_merge []).1 =
      { nodes := erase_key g_merge.nodes "b", edges := g_merge.edges.map (merge_endpoints "b" "a") }
    ∧ lookup_node (g_merge.apply_instruction inst_merge []).1.nodes "a" =
        lookup_node g_merge.nodes "a"
    ∧ contains_key (g_merge.apply_instruction inst_merge []).1.nodes "b" = false
    ∧ (g_merge.apply_instruction inst_merge []).2.2 = true :=
  (merge_nodes_spec g_merge inst_merge [] "b" "a" rfl rfl rfl).1
    (by decide) (by decide) (by decide)

/-- Claim C3: a flag_error instruction mutates nothing and yields a single "error"
audit entry with the halt message; the batch runner stops at it, applying no
instruction that follows it in the processing order, and reports halt
(false); the convergence loop turns a halt report into its terminal halted
state after that single round; and the batch [rename_node, flag_error]
applies the rename and then halts. -/
theorem flag_error_semantics :
    (∀ (g : Graph) (inst : ValidatorInstruction) (log : List AuditEntry),
       inst.action = "flag_error" →
         (g.apply_instruction inst log).1 = g
         ∧ (g.apply_instruction inst log).2.2 = false
         ∧ (g.apply_instruction inst log).2.1 =
             log ++ [{ action := "flag_error", status := "error", reason := inst.reason,
                       message := some "Pipeline halted due to validator error" }])
    ∧ (∀ (g : Graph) (inst : ValidatorInstruction) (rest : List ValidatorInstruction)
         (log : List AuditEntry),
       inst.action = "flag_error" →
         Graph.run_instructions g (inst :: rest) log =
           (g, (g.apply_instruction inst log).2.1, false))
    ∧ (∀ (validate : Graph → ValidatorResponse) (b : Nat) (g : Graph),
       (g.apply_validator_response (validate g) []).2.2 = false →
         validation_loop validate (b + 1) g =
           ((g.apply_validator_response (validate g) []).1, LoopOutcome.halted, 1))
    ∧ (∀ (g : Graph) (nid lbl r1 r2 : String),
       contains_key g.nodes nid = true →
         (g.apply_validator_response
            { instructions :=
                [{ action := "rename_node", node_id := some nid, new_label := some lbl,
                   reason := r1 },
                 { action := "flag_error", reason := r2 }] } []).1 =
           { g with nodes := g.nodes.map (rename_label nid lbl) }
         ∧ (g.apply_validator_response
              { instructions :=
                  [{ action := "rename_node", node_id := some nid, new_label := some lbl,
                     reason := r1 },
                   { action := "flag_error", reason := r2 }] } []).2.2 = false) := by
  have h1 : ∀ (g : Graph) (inst : ValidatorInstruction) (log : List AuditEntry),
      inst.action = "flag_error" →
        (g.apply_instruction inst log).1 = g
        ∧ (g.apply_instruction inst log).2.2 = false
        ∧ (g.apply_instruction inst log).2.1 =
            log ++ [{ action := "flag_error", status := "error", reason := inst.reason,
                      message := some "Pipeline halted due to validator error" }] := by
    intro g inst log ha
    unfold Graph.apply_instruction
    simp [ha]
  have h2 : ∀ (g : Graph) (inst : ValidatorInstruction) (rest : List ValidatorInstruction)
      (log : List AuditEntry),
      inst.action = "flag_error" →
        Graph.run_instructions g (inst :: rest) log =
          (g, (g.apply_instruction inst log).2.1, false) := by
    intro g inst rest log ha
    have hr := h1 g inst log ha
    simp only [Graph.run_instructions]
    rw [hr.2.1, ha]
    simp [hr.1]
  have h3 : ∀ (validate : Graph → ValidatorResponse) (b : Nat) (g : Graph),
      (g.apply_validator_response (validate g) []).2.2 = false →
        validation_loop validate (b + 1) g =
          ((g.apply_validator_response (validate g) []).1, LoopOutcome.halted, 1) := by
    intro validate b g hh
    simp only [validation_loop]
    rw [hh]
    simp
  refine ⟨h1, h2, h3, ?_⟩
  intro g nid lbl r1 r2 hc
  simp [Graph.apply_validator_response, sort_desc_by, insert_desc_by,
    Graph.run_instructions, Graph.apply_instruction, hc]

/- A validator that immediately flags a critical error. -/
def flag_validator : Graph → ValidatorResponse :=
  fun _ => { instructions := [{ action := "flag_error", reason := "bad" }] }

/- The concrete batch [rename_node(a), flag_error]. -/
def rename_flag_resp : ValidatorResponse :=
  { instructions :=
      [{ action := "rename_node", node_id := some "a", new_label := some "Alpha",
         reason := "r1" },
       { action := "flag_error", reason := "r2" }] }

/-- Claim C3 witness: on the concrete graph, the flag-raising validator halts the
loop in one round, and the concrete [rename_node, flag_error] batch applies
the rename and reports halt. -/
theorem flag_error_semantics_witness :
    (validation_loop flag_validator 10 g_ab =
       ((g_ab.apply_validator_response (flag_validator g_ab) []).1, LoopOutcome.halted, 1))
    ∧ ((g_ab.apply_validator_response rename_flag_resp []).1 =
         { g_ab with nodes := g_ab.nodes.map (rename_label "a" "Alpha") }
       ∧ (g_ab.apply_validator_response rename_flag_resp []).2.2 = false) :=
  ⟨flag_error_semantics.2.2.1 flag_validator 9 g_ab (by decide),
   flag_error_semantics.2.2.2 g_ab "a" "Alpha" "r1" "r2" (by decide)⟩

/-- Claim C1: the batch corrector runs the remove_edge group sorted by descending
1-indexed position before the remaining instructions in their original
relative order; on edges [e1,e2,e3,e4], a single batch removing positions 2
and 4 yields [e1,e3] whichever way the two remove instructions are ordered
inside the batch. -/
theorem batch_removal_order (ns : List (String × Node)) (e1 e2 e3 e4 : Edge)
    (log : List AuditEntry) (r1 r2 : String) :
    ((Graph.apply_validator_response ⟨ns, [e1, e2, e3, e4]⟩
        { instructions := [{ action := "remove_edge", edge_id := some 2, reason := r1 },
                           { action := "remove_edge", edge_id := some 4, reason := r2 }] }
        log).1.edges = [e1, e3])
    ∧ ((Graph.apply_validator_response ⟨ns, [e1, e2, e3, e4]⟩
        { instructions := [{ action := "remove_edge", edge_id := some 4, reason := r2 },
                           { action := "remove_edge", edge_id := some 2, reason := r1 }] }
        log).1.edges = [e1, e3])
    ∧ (∀ (resp : ValidatorResponse) (log2 : List AuditEntry),
        Graph.apply_validator_response ⟨ns, [e1, e2, e3, e4]⟩ resp log2 =
          Graph.run_instructions ⟨ns, [e1, e2, e3, e4]⟩
            (sorted_removes_of resp ++ others_of resp) log2) :=
  ⟨rfl, rfl, fun _ _ => rfl⟩

/-- Claim C10: the corrector runs the descending-sorted removals before the other
instructions; a remove_edge instruction with an absent edge_id sorts with key
0, so every remove_edge carrying a positive position comes strictly before
it in the sorted group; and the interpreter records exactly one failed audit
entry for the absent id and leaves the graph unchanged (no exception is
modeled because none can be raised). -/
theorem remove_edge_none_spec (resp : ValidatorResponse) (g : Graph)
    (log : List AuditEntry) :
    (g.apply_validator_response resp log =
       Graph.run_instructions g (sorted_removes_of resp ++ others_of resp) log)
    ∧ (∀ inst ∈ others_of resp, inst.action ≠ "remove_edge")
    ∧ (∀ (i j : Fin (sorted_removes_of resp).length),
        ((sorted_removes_of resp).get i).edge_id = none →
        (∃ k, ((sorted_removes_of resp).get j).edge_id = some k ∧ 0 < k) →
        j < i)
    ∧ (∀ (g2 : Graph) (log2 : List AuditEntry) (inst : ValidatorInstruction),
        inst.action = "remove_edge" → inst.edge_id = none →
        g2.apply_instruction inst log2 =
          (g2, log2 ++ [{ action := "remove_edge", status := "failed",
                          reason := "Invalid edge_id: None" }], false)) := by
  refine ⟨rfl, ?_, ?_, ?_⟩
  · intro inst hmem
    have := List.of_mem_filter hmem
    simpa [bne_iff_ne] using this
  · intro i j hnone hpos
    obtain ⟨k, hk, hkpos⟩ := hpos
    have hp : (sorted_removes_of resp).Pairwise (fun a b => inst_key b ≤ inst_key a) :=
      pairwise_sort_desc_by inst_key
        (resp.instructions.filter (fun i => i.action == "remove_edge"))
    rcases lt_trichotomy i j with hij | hij | hij
    · have hle := (List.pairwise_iff_get.mp hp) i j hij
      have hki : inst_key ((sorted_removes_of resp).get i) = 0 := by
        unfold inst_key
        rw [hnone]
        rfl
      have hkj : inst_key ((sorted_removes_of resp).get j) = k := by
        unfold inst_key
        rw [hk]
        rfl
      rw [hki, hkj] at hle
      exact absurd (lt_of_lt_of_le hkpos hle) (lt_irrefl 0)
    · rw [hij] at hnone
      rw [hnone] at hk
      exact absurd hk (by simp)
    · exact hij
  · intro g2 log2 inst ha hid
    unfold Graph.apply_instruction
    simp [ha, hid, opt_int_str]

/- A batch holding a remove_edge with an absent edge_id, a remove_edge with a
   positive position, and an unrelated instruction. -/
def resp_c10 : ValidatorResponse :=
  { instructions :=
      [{ action := "remove_edge", edge_id := none, reason := "n" },
       { action := "remove_edge", edge_id := some 2, reason := "p" },
       { action := "rename_node", node_id := some "a", new_label := some "L",
         reason := "o" }] }

/-- Claim C10 witness: in the concrete batch, the positive-position removal sorts
strictly before the absent-id removal, and the interpreter turns the
absent-id removal into a single failed entry with the graph unchanged. -/
theorem remove_edge_none_spec_witness :
    ((⟨0, by decide⟩ : Fin (sorted_removes_of resp_c10).length) < ⟨1, by decide⟩)
    ∧ (g_ab.apply_instruction { action := "remove_edge", edge_id := none, reason := "n" } [] =
        (g_ab, [{ action := "remove_edge", status := "failed",
                  reason := "Invalid edge_id: None" }], false)) :=
  ⟨(remove_edge_none_spec resp_c10 g_ab []).2.2.1 ⟨1, by decide⟩ ⟨0, by decide⟩
      (by decide) ⟨2, by decide, by decide⟩,
   (remove_edge_none_spec resp_c10 g_ab []).2.2.2 g_ab []
      { action := "remove_edge", edge_id := none, reason := "n" } rfl rfl⟩

/-- Claim C9: with a validator that always reports needs_correction and whose
batches never halt, the convergence while-loop runs its full iteration
budget, applying the batch once per round, and ends in the gave-up state
with the n-times-edited graph kept (the loop returns and performs no further
mutation); the demo budget is max_iterations = 10. -/
theorem convergence_gave_up (validate : Graph → ValidatorResponse)
    (hN : ∀ g : Graph, (validate g).needs_correction = true)
    (hC : ∀ g : Graph, (g.apply_validator_response (validate g) []).2.2 = true) :
    ∀ (n : Nat) (g : Graph),
      validation_loop validate n g =
        ((validation_step validate)^[n] g, LoopOutcome.gaveUp, n) := by
  intro n
  induction n with
  | zero => intro g; rfl
  | succ b ih =>
      intro g
      simp only [validation_loop]
      rw [hC g, hN g]
      simp only [Bool.not_true, Bool.false_eq_true, if_false]
      rw [ih]
      simp [validation_step, Function.iterate_succ_apply]

/- A validator that always demands another round with an empty (harmless)
   batch. -/
def always_needs_correction : Graph → ValidatorResponse :=
  fun _ => { needs_correction := true }

/-- Claim C9 witness: the always-unsatisfied validator drives the loop through
exactly the demo budget of 10 rounds into the gave-up state. -/
theorem convergence_gave_up_witness :
    validation_loop always_needs_correction demo_max_iterations g_ab =
      ((validation_step always_needs_correction)^[10] g_ab, LoopOutcome.gaveUp, 10) :=
  convergence_gave_up always_needs_correction (fun _ => rfl) (fun _ => rfl)
    demo_max_iterations g_ab

/- The orbit-resolution example entities over the reals: P absolute at
   (10,10); Q orbiting P at radius 5, angle 0; R orbiting Q at radius 5,
   angle 90. -/
noncomputable def ent_p : Entity ℝ :=
  { id := "P", shape := "circle", size := { radius := 1 },
    position := { type := "absolute", x := 10, y := 10 } }

noncomputable def ent_q : Entity ℝ :=
  { id := "Q", shape := "circle", size := { radius := 1 },
    position := { type := "orbit", x := 0, y := 0,
                  orbit := some { center := "P", radius := 5, angle_deg := 0 } } }

noncomputable def ent_r : Entity ℝ :=
  { id := "R", shape := "circle", size := { radius := 1 },
    position := { type := "orbit", x := 0, y := 0,
                  orbit := some { center := "Q", radius := 5, angle_deg := 90 } } }

noncomputable def demo_entities : List (Entity ℝ) := [ent_p, ent_q, ent_r]

/-- Claim C8: when an orbit-positioned entity's center resolves to (cx, cy) at some
recursion depth, one more resolution step yields
(cx + radius * cos(radians angle), cy + radius * sin(radians angle)); with
exact real trigonometry, P absolute at (10,10) gives Q (orbit P, radius 5,
angle 0 degrees) the position (15,10), and R (orbit Q, radius 5, angle 90
degrees) the position (15,15). -/
theorem orbit_resolution :
    (∀ (K : Type) [Add K] [Mul K] (cosf sinf radiansf : K → K)
       (ents : List (Entity K)) (fuel : Nat) (ent c : Entity K) (orb : Orbit K)
       (cx cy : K),
       ent.position.type = "orbit" →
       ent.position.orbit = some orb →
       ents.find? (fun e => e.id == orb.center) = some c →
       get_entity_position cosf sinf radiansf ents fuel c = some (cx, cy) →
       get_entity_position cosf sinf radiansf ents (fuel + 1) ent =
         some (cx + orb.radius * cosf (radiansf orb.angle_deg),
               cy + orb.radius * sinf (radiansf orb.angle_deg)))
    ∧ (get_entity_position Real.cos Real.sin (fun d => d * Real.pi / 180)
         demo_entities 2 ent_q = some (15, 10))
    ∧ (get_entity_position Real.cos Real.sin (fun d => d * Real.pi / 180)
         demo_entities 3 ent_r = some (15, 15)) := by
  have hgen : ∀ (K : Type) [Add K] [Mul K] (cosf sinf radiansf : K → K)
      (ents : List (Entity K)) (fuel : Nat) (ent c : Entity K) (orb : Orbit K)
      (cx cy : K),
      ent.position.type = "orbit" →
      ent.position.orbit = some orb →
      ents.find? (fun e => e.id == orb.center) = some c →
      get_entity_position cosf sinf radiansf ents fuel c = some (cx, cy) →
      get_entity_position cosf sinf radiansf ents (fuel + 1) ent =
        some (cx + orb.radius * cosf (radiansf orb.angle_deg),
              cy + orb.radius * sinf (radiansf orb.angle_deg)) := by
    intro K _instA _instM cosf sinf radiansf ents fuel ent c orb cx cy hty horb hfind hc
    simp [get_entity_position, hty, horb, hfind, hc]
  have hp1 : get_entity_position Real.cos Real.sin (fun d => d * Real.pi / 180)
      demo_entities 1 ent_p = some (10, 10) := rfl
  have hfq : demo_entities.find? (fun e => e.id == "P") = some ent_p := rfl
  have hq : get_entity_position Real.cos Real.sin (fun d => d * Real.pi / 180)
      demo_entities 2 ent_q = some (15, 10) := by
    have := hgen ℝ Real.cos Real.sin (fun d => d * Real.pi / 180) demo_entities 1
      ent_q ent_p { center := "P", radius := 5, angle_deg := 0 } 10 10 rfl rfl hfq hp1
    rw [this]
    norm_num
  have hfr : demo_entities.find? (fun e => e.id == "Q") = some ent_q := rfl
  have hr : get_entity_position Real.cos Real.sin (fun d => d * Real.pi / 180)
      demo_entities 3 ent_r = some (15, 15) := by
    have := hgen ℝ Real.cos Real.sin (fun d => d * Real.pi / 180) demo_entities 2
      ent_r ent_q { center := "Q", radius := 5, angle_deg := 90 } 15 10 rfl rfl hfr hq
    rw [this]
    have hang : (90 : ℝ) * Real.pi / 180 = Real.pi / 2 := by ring
    norm_num [hang, Real.cos_pi_div_two, Real.sin_pi_div_two]
  exact ⟨hgen, hq, hr⟩

/- A concrete rational-scalar instance of the orbit step: C absolute at
   (3,4), O orbiting C at radius 2, angle 45, with identity trig stubs. -/
def q_center : Entity ℚ :=
  { id := "C", shape := "circle", size := { radius := 0 },
    position := { type := "absolute", x := 3, y := 4 } }

def q_orbiter : Entity ℚ :=
  { id := "O", shape := "circle", size := { radius := 0 },
    position := { type := "orbit", x := 0, y := 0,
                  orbit := some { center := "C", radius := 2, angle_deg := 45 } } }

/-- Claim C8 witness: the general orbit step applied at a concrete input. -/
theorem orbit_resolution_witness :
    get_entity_position id id id [q_center, q_orbiter] 2 q_orbiter =
      some (3 + 2 * id (id 45), 4 + 2 * id (id 45)) :=
  orbit_resolution.1 ℚ id id id [q_center, q_orbiter] 1 q_orbiter q_center
    { center := "C", radius := 2, angle_deg := 45 } 3 4 rfl rfl rfl rfl
